import Mathlib

/-!
Verification of the memoria allocation-attribution library.

The development embeds the library shallowly: the shim's global and
thread-local mutable state (the thread-local current-usecase cell with its
RefCell borrow flag, the TRACKED_POINTERS map, and the recorder) is passed
explicitly as a `ShimState`, concurrent maps become association lists, and
every operation from src/lib.rs and src/recorder.rs becomes a pure state
transformer.  A single thread's view is modelled; a reentrant entry into the
shim (an allocation performed from inside a recorder callback) appears as a
call on a state whose `borrowed` flag is set.
-/

namespace Memoria

/-- Mirrors types.rs `pub type UseCaseBytes = u32`: the raw 32-bit encoding of
a use case.  The values are used only as opaque map keys here, so they are
modelled as naturals. -/
abbrev UseCaseBytes := Nat

/-- Mirrors types.rs `pub enum Error`. -/
inductive Error where
  | currentUsecaseContentionRefCell
  | currentUsecaseContentionThreadLocal
  | currentUsecaseBadBytes
deriving DecidableEq, Repr

/-- Mirrors the types.rs `UseCase` trait bound
`Default + TryFrom<UseCaseBytes> + Into<UseCaseBytes>`: a default value, a
total encoding, and a partial decoding. -/
structure UseCaseImpl (U : Type) where
  default : U
  into : U → UseCaseBytes
  tryFrom : UseCaseBytes → Option U

/-- Mirrors the types.rs `Recorder` trait.  The methods take interior-mutable
`&self`; here the recorder state `S` is threaded explicitly. -/
structure Recorder (U : Type) (S : Type) where
  on_alloc : S → U → Nat → Bool × S
  on_dealloc : S → U → Nat → S
  on_error : S → Error → Option Nat → S

/-- The mutable state a single thread's shim operations touch: whether the
thread-local `CURRENT_USECASE` is still accessible (`tlDead` models
`LocalKey::try_with` failing during thread teardown), whether its RefCell is
currently mutably borrowed by an outer shim frame, the cell's contents, the
global `TRACKED_POINTERS` map, and the recorder's state. -/
structure ShimState (S : Type) where
  tlDead : Bool
  borrowed : Bool
  cell : Option UseCaseBytes
  tracked : List (Nat × UseCaseBytes)
  recSt : S

/-- Association-list lookup, mirroring `DashMap::get`. -/
def mapLookup {V : Type} (k : Nat) : List (Nat × V) → Option V
  | [] => none
  | (k2, v) :: rest => if k2 = k then some v else mapLookup k rest

/-- Removal of a key, the state part of `DashMap::remove`. -/
def mapErase {V : Type} (k : Nat) (m : List (Nat × V)) : List (Nat × V) :=
  m.filter (fun p => p.1 != k)

/-- Overwriting insert, mirroring `DashMap::insert`. -/
def mapInsert {V : Type} (k : Nat) (v : V) (m : List (Nat × V)) : List (Nat × V) :=
  (k, v) :: mapErase k m

/-- Mirrors lib.rs `Alloc::synchronized`.  The closure `f` receives the
borrowed cell contents plus the shim-global state it may reach through
`&self` (tracked-pointer map and recorder state).  `try_with` failure yields
`ContentionThreadLocal`; an already borrowed cell yields
`ContentionRefCell`; any error, including one returned by `f`, is reported
to the recorder's `on_error` with the given size before being returned. -/
def synchronized {U S R2 : Type} (R : Recorder U S) (size : Option Nat)
    (f : Option UseCaseBytes → List (Nat × UseCaseBytes) → S →
      Except Error R2 × Option UseCaseBytes × List (Nat × UseCaseBytes) × S)
    (s : ShimState S) : Except Error R2 × ShimState S :=
  if s.tlDead then
    (Except.error Error.currentUsecaseContentionThreadLocal,
     { s with recSt := R.on_error s.recSt Error.currentUsecaseContentionThreadLocal size })
  else if s.borrowed then
    (Except.error Error.currentUsecaseContentionRefCell,
     { s with recSt := R.on_error s.recSt Error.currentUsecaseContentionRefCell size })
  else
    match f s.cell s.tracked s.recSt with
    | (Except.ok r, c2, t2, r2) =>
      (Except.ok r, { s with cell := c2, tracked := t2, recSt := r2 })
    | (Except.error e, c2, t2, r2) =>
      (Except.error e, { s with cell := c2, tracked := t2, recSt := R.on_error r2 e size })

/-- Mirrors lib.rs `Alloc::handle_on_alloc`: inside the synchronized section,
decode the current cell (default on unset or on decode failure), inform the
recorder, and if it accepts insert the raw bytes that were active (or the
default's encoding when unset) under the pointer. -/
def handle_on_alloc {U S : Type} (uc : UseCaseImpl U) (R : Recorder U S)
    (ptr : Nat) (size : Nat) (s : ShimState S) : ShimState S :=
  (synchronized R (some size) (fun cell tracked recSt =>
    let use_case := (cell.bind (fun x => uc.tryFrom x)).getD uc.default
    let res := R.on_alloc recSt use_case size
    let tracked2 :=
      if res.1 then mapInsert ptr (cell.getD (uc.into uc.default)) tracked else tracked
    (Except.ok (), cell, tracked2, res.2)) s).2

/-- Mirrors lib.rs `Alloc::handle_on_dealloc`: inside the synchronized
section, remove the pointer from the tracked map; if an entry existed,
decode its stored bytes (default on failure) and inform the recorder. -/
def handle_on_dealloc {U S : Type} (uc : UseCaseImpl U) (R : Recorder U S)
    (ptr : Nat) (size : Nat) (s : ShimState S) : ShimState S :=
  (synchronized R (some size) (fun cell tracked recSt =>
    match mapLookup ptr tracked with
    | some bytes =>
      (Except.ok (), cell, mapErase ptr tracked,
       R.on_dealloc recSt ((uc.tryFrom bytes).getD uc.default) size)
    | none => (Except.ok (), cell, tracked, recSt)) s).2

/-- Mirrors lib.rs `Guard`: holds the previous cell contents. -/
structure Guard where
  old_value : Option UseCaseBytes
deriving DecidableEq, Repr

/-- Mirrors lib.rs `impl Drop for Guard`: `try_with` failure on a dead
thread-local is swallowed by `.ok()` (nothing is restored); the inner
`borrow_mut` panics when the cell is still borrowed, modelled as `none`;
otherwise the captured old value is written back. -/
def Guard.drop {S : Type} (g : Guard) (s : ShimState S) : Option (ShimState S) :=
  if s.tlDead then some s
  else if s.borrowed then none
  else some { s with cell := g.old_value }

/-- Mirrors lib.rs `Alloc::with_usecase`: swap the cell for the new tag's
encoding inside the synchronized section, returning a guard holding the
prior contents; `.ok()` turns a contention error into `none`. -/
def with_usecase {U S : Type} (uc : UseCaseImpl U) (R : Recorder U S)
    (use_case : U) (s : ShimState S) : Option Guard × ShimState S :=
  let r := synchronized R none (fun cell tracked recSt =>
    (Except.ok (Guard.mk cell), some (uc.into use_case), tracked, recSt)) s
  (r.1.toOption, r.2)

/-- Mirrors lib.rs `Alloc::with_recorder`: run the caller's closure on the
recorder inside the synchronized section. -/
def with_recorder {U S R2 : Type} (R : Recorder U S)
    (f : S → Except Error R2 × S) (s : ShimState S) : Except Error R2 × ShimState S :=
  synchronized R none (fun cell tracked recSt =>
    let r := f recSt
    (r.1, cell, tracked, r.2)) s

/-- Mirrors lib.rs `GlobalAlloc::alloc` for `Alloc`: the underlying allocator
runs first (its returned pointer, null or not, is the `ptr` argument), the
allocation hook then runs unconditionally, and the underlying pointer is
returned. -/
def alloc {U S : Type} (uc : UseCaseImpl U) (R : Recorder U S)
    (ptr : Nat) (size : Nat) (s : ShimState S) : Nat × ShimState S :=
  (ptr, handle_on_alloc uc R ptr size s)

/-- Mirrors lib.rs `GlobalAlloc::dealloc` for `Alloc`: the deallocation hook
runs first, then the pointer is forwarded to the underlying allocator (the
underlying call has no state in this model). -/
def dealloc {U S : Type} (uc : UseCaseImpl U) (R : Recorder U S)
    (ptr : Nat) (size : Nat) (s : ShimState S) : ShimState S :=
  handle_on_dealloc uc R ptr size s

/-- Mirrors recorder.rs `Stat`. `isize` fields are modelled as unbounded
integers; allocation sizes through the shim are bounded by the `Layout`
contract, so the `as isize` casts do not wrap. -/
structure Stat where
  current : Int
  peak : Int
  total : Int
deriving DecidableEq, Repr

/-- Mirrors `#[derive(Default)]` on `Stat`. -/
def Stat.default : Stat := { current := 0, peak := 0, total := 0 }

/-- Mirrors recorder.rs `Stat::record`. -/
def Stat.record (s : Stat) (size : Int) : Stat :=
  let current := s.current + size
  let peak := if s.peak < current then current else s.peak
  let total := if 0 < size then s.total + size else s.total
  { current := current, peak := peak, total := total }

/-- Mirrors recorder.rs `StatsRecorder`: three error counters and a lazily
initialized stats map (`OnceCell<DashMap<UseCaseBytes, Stat>>`, hence the
`Option`). -/
structure StatsRecorder where
  current_usecase_contention_ref_cell : Nat
  current_usecase_contention_thread_local : Nat
  current_usecase_bad_bytes : Nat
  results : Option (List (UseCaseBytes × Stat))
deriving DecidableEq, Repr

/-- Mirrors `StatsRecorder::new`. -/
def StatsRecorder.new : StatsRecorder :=
  { current_usecase_contention_ref_cell := 0
    current_usecase_contention_thread_local := 0
    current_usecase_bad_bytes := 0
    results := none }

/-- Mirrors `StatsRecorder::get`: default stats before the map is
initialized or when the tag has no entry. -/
def StatsRecorder.get {U : Type} (uc : UseCaseImpl U) (r : StatsRecorder)
    (use_case : U) : Stat :=
  match r.results with
  | none => Stat.default
  | some m =>
    match mapLookup (uc.into use_case) m with
    | some st => st
    | none => Stat.default

/-- Mirrors `StatsRecorder::get_mut` followed by `Stat::record`:
`get_or_init` the map, `entry(..).or_insert_with(Default::default)`, then
record the signed size on that entry. -/
def statUpdate (k : UseCaseBytes) (size : Int)
    (m : List (UseCaseBytes × Stat)) : List (UseCaseBytes × Stat) :=
  mapInsert k (((mapLookup k m).getD Stat.default).record size) m

/-- Mirrors `StatsRecorder::get_error` (via `get_error_atomic`). -/
def StatsRecorder.get_error (r : StatsRecorder) (code : Error) : Nat :=
  match code with
  | Error.currentUsecaseContentionRefCell => r.current_usecase_contention_ref_cell
  | Error.currentUsecaseContentionThreadLocal => r.current_usecase_contention_thread_local
  | Error.currentUsecaseBadBytes => r.current_usecase_bad_bytes

/-- Mirrors `Recorder::on_alloc` for `StatsRecorder`: record a positive
delta and return true so the pointer is tracked. -/
def StatsRecorder.on_alloc {U : Type} (uc : UseCaseImpl U) (r : StatsRecorder)
    (use_case : U) (size : Nat) : Bool × StatsRecorder :=
  (true, { r with results := some (statUpdate (uc.into use_case) (Int.ofNat size) (r.results.getD [])) })

/-- Mirrors `Recorder::on_dealloc` for `StatsRecorder`: record a negative
delta. -/
def StatsRecorder.on_dealloc {U : Type} (uc : UseCaseImpl U) (r : StatsRecorder)
    (use_case : U) (size : Nat) : StatsRecorder :=
  { r with results := some (statUpdate (uc.into use_case) (-(Int.ofNat size)) (r.results.getD [])) }

/-- Mirrors `Recorder::on_error` for `StatsRecorder`: `fetch_add(1)` on the
matching counter; the size is ignored. -/
def StatsRecorder.on_error (r : StatsRecorder) (code : Error)
    (_size : Option Nat) : StatsRecorder :=
  match code with
  | Error.currentUsecaseContentionRefCell =>
    { r with current_usecase_contention_ref_cell := r.current_usecase_contention_ref_cell + 1 }
  | Error.currentUsecaseContentionThreadLocal =>
    { r with current_usecase_contention_thread_local := r.current_usecase_contention_thread_local + 1 }
  | Error.currentUsecaseBadBytes =>
    { r with current_usecase_bad_bytes := r.current_usecase_bad_bytes + 1 }

/-- Mirrors `StatsRecorder::flush`: visit every stats entry (decoding keys,
default on failure), clear the map, then visit the three error counters in
source order; the counters themselves are read, not reset.  Returns the
stat visits, the error visits, and the new recorder state. -/
def StatsRecorder.flush {U : Type} (uc : UseCaseImpl U) (r : StatsRecorder) :
    List (U × Stat) × List (Error × Nat) × StatsRecorder :=
  let visited : List (U × Stat) :=
    match r.results with
    | none => []
    | some m => m.map (fun kv => ((uc.tryFrom kv.1).getD uc.default, kv.2))
  let results2 : Option (List (UseCaseBytes × Stat)) :=
    match r.results with
    | none => none
    | some _ => some []
  (visited,
   [(Error.currentUsecaseBadBytes, r.get_error Error.currentUsecaseBadBytes),
    (Error.currentUsecaseContentionRefCell, r.get_error Error.currentUsecaseContentionRefCell),
    (Error.currentUsecaseContentionThreadLocal, r.get_error Error.currentUsecaseContentionThreadLocal)],
   { r with results := results2 })

/-- The `Recorder` instance of `StatsRecorder` (recorder.rs
`unsafe impl Recorder for StatsRecorder`). -/
def statsRecorder {U : Type} (uc : UseCaseImpl U) : Recorder U StatsRecorder :=
  { on_alloc := fun r u n => StatsRecorder.on_alloc uc r u n
    on_dealloc := fun r u n => StatsRecorder.on_dealloc uc r u n
    on_error := fun r e sz => StatsRecorder.on_error r e sz }

/-- Concrete use-case instance used to evaluate theorems, mirroring the
four-variant `MyUseCase` enum of tests/basic.rs (`num_enum` derives: the
encoding is the discriminant, decoding fails for values outside 0..3, the
default is variant 0). -/
def myUseCase : UseCaseImpl Nat :=
  { default := 0
    into := fun u => u
    tryFrom := fun b => if b < 4 then some b else none }

/-- One recorder call on a single tag's `Stat`, as made by
`StatsRecorder::on_alloc` / `on_dealloc`. -/
inductive StatEvent where
  | alloc (size : Nat)
  | dealloc (size : Nat)
deriving DecidableEq, Repr

/-- Apply one recorder event to a `Stat` through `Stat::record`. -/
def statStep (s : Stat) : StatEvent → Stat
  | StatEvent.alloc n => s.record (Int.ofNat n)
  | StatEvent.dealloc n => s.record (-(Int.ofNat n))

/-- Run a sequence of recorder events on a tag's `Stat`, starting from the
zero stats an entry is created with. -/
def runStats (l : List StatEvent) : Stat := l.foldl statStep Stat.default

/-- A state in which the thread's context cell is mutably borrowed by an
outer shim frame (mid `handle_on_alloc`), with one tracked pointer. -/
def sBorrowed : ShimState StatsRecorder :=
  { tlDead := false, borrowed := true, cell := some 1
    tracked := [(5, 0)], recSt := StatsRecorder.new }

/-- A fresh quiescent state: live thread-local, cell unset, nothing tracked,
fresh recorder. -/
def s0 : ShimState StatsRecorder :=
  { tlDead := false, borrowed := false, cell := none
    tracked := [], recSt := StatsRecorder.new }

/-- A quiescent state whose cell holds the raw value 99, which `myUseCase`
fails to decode. -/
def sBadCell : ShimState StatsRecorder :=
  { tlDead := false, borrowed := false, cell := some 99
    tracked := [], recSt := StatsRecorder.new }

/-- A recorder state whose BadBytes counter is 1. -/
def rErr : StatsRecorder :=
  { current_usecase_contention_ref_cell := 0
    current_usecase_contention_thread_local := 0
    current_usecase_bad_bytes := 1
    results := none }

/-- C1: an entry into the shim's synchronized section (alloc hook, dealloc
hook, or with_usecase) on a thread whose context cell is already mutably
borrowed by an outer shim frame performs no recorder on_alloc or on_dealloc
call, leaves the pointer map and the cell untouched, applies on_error with
ContentionRefCell exactly once, and returns immediately (with_usecase
returning none). -/
theorem C1_reentrant_entry_drops_event {U S : Type} (uc : UseCaseImpl U)
    (R : Recorder U S) (s : ShimState S) (ptr size : Nat) (u : U)
    (htl : s.tlDead = false) (hb : s.borrowed = true) :
    handle_on_alloc uc R ptr size s =
      { s with recSt := R.on_error s.recSt Error.currentUsecaseContentionRefCell (some size) } ∧
    handle_on_dealloc uc R ptr size s =
      { s with recSt := R.on_error s.recSt Error.currentUsecaseContentionRefCell (some size) } ∧
    with_usecase uc R u s =
      (none, { s with recSt := R.on_error s.recSt Error.currentUsecaseContentionRefCell none }) := by
  refine ⟨?_, ?_, ?_⟩ <;>
    simp [handle_on_alloc, handle_on_dealloc, with_usecase, synchronized, htl, hb,
      Except.toOption]

/-- Witness for C1 at a concrete borrowed state with the default recorder. -/
theorem C1_reentrant_entry_drops_event_w :
    handle_on_alloc myUseCase (statsRecorder myUseCase) 5 16 sBorrowed =
      { sBorrowed with
        recSt := (statsRecorder myUseCase).on_error sBorrowed.recSt
          Error.currentUsecaseContentionRefCell (some 16) } ∧
    handle_on_dealloc myUseCase (statsRecorder myUseCase) 5 16 sBorrowed =
      { sBorrowed with
        recSt := (statsRecorder myUseCase).on_error sBorrowed.recSt
          Error.currentUsecaseContentionRefCell (some 16) } ∧
    with_usecase myUseCase (statsRecorder myUseCase) 2 sBorrowed =
      (none, { sBorrowed with
        recSt := (statsRecorder myUseCase).on_error sBorrowed.recSt
          Error.currentUsecaseContentionRefCell none }) :=
  C1_reentrant_entry_drops_event myUseCase (statsRecorder myUseCase) sBorrowed 5 16 2 rfl rfl

/-- C2 counterexample: when the underlying allocator returns null (pointer
0), the shim still records — the default recorder's on_alloc runs (the
default tag's stats change) and an entry for pointer 0 is inserted into the
pointer map, contrary to the claim that null is returned without
recording. -/
theorem C2_null_is_recorded :
    (alloc myUseCase (statsRecorder myUseCase) 0 16 s0).2.tracked = [(0, 0)] ∧
    StatsRecorder.get myUseCase (alloc myUseCase (statsRecorder myUseCase) 0 16 s0).2.recSt 0 =
      { current := 16, peak := 16, total := 16 } := by
  exact ⟨rfl, rfl⟩

/-- C2 (amended): alloc forwards to the underlying allocator first and
returns its pointer unchanged; the recording hook then runs unconditionally
for every returned pointer, null included: the current cell is decoded
(default when unset or undecodable), on_alloc is applied once, and the raw
active bytes are inserted under the pointer exactly when the recorder
accepts. -/
theorem C2_alloc_records_unconditionally {U S : Type} (uc : UseCaseImpl U)
    (R : Recorder U S) (ptr size : Nat) (s : ShimState S)
    (htl : s.tlDead = false) (hb : s.borrowed = false) :
    (alloc uc R ptr size s).1 = ptr ∧
    (alloc uc R ptr size s).2 =
      { s with
        tracked :=
          if (R.on_alloc s.recSt ((s.cell.bind (fun x => uc.tryFrom x)).getD uc.default) size).1
          then mapInsert ptr (s.cell.getD (uc.into uc.default)) s.tracked
          else s.tracked
        recSt :=
          (R.on_alloc s.recSt ((s.cell.bind (fun x => uc.tryFrom x)).getD uc.default) size).2 } := by
  refine ⟨rfl, ?_⟩
  simp [alloc, handle_on_alloc, synchronized, htl, hb]

/-- Witness for C2's amended theorem at the null pointer on a concrete
state. -/
theorem C2_alloc_records_unconditionally_w :
    (alloc myUseCase (statsRecorder myUseCase) 0 16 s0).1 = 0 ∧
    (alloc myUseCase (statsRecorder myUseCase) 0 16 s0).2 =
      { s0 with
        tracked :=
          if ((statsRecorder myUseCase).on_alloc s0.recSt
              ((s0.cell.bind (fun x => myUseCase.tryFrom x)).getD myUseCase.default) 16).1
          then mapInsert 0 (s0.cell.getD (myUseCase.into myUseCase.default)) s0.tracked
          else s0.tracked
        recSt :=
          ((statsRecorder myUseCase).on_alloc s0.recSt
            ((s0.cell.bind (fun x => myUseCase.tryFrom x)).getD myUseCase.default) 16).2 } :=
  C2_alloc_records_unconditionally myUseCase (statsRecorder myUseCase) 0 16 s0 rfl rfl

/-- C3: a successful with_usecase returns a guard capturing the prior cell
contents, sets the cell to the new tag's encoding while touching nothing
else, and dropping that guard on the creating thread (at any later state
whose cell is accessible and unborrowed) restores exactly the captured
prior value — hence nested guards restore in LIFO order. -/
theorem C3_guard_restores_prior {U S : Type} (uc : UseCaseImpl U)
    (R : Recorder U S) (u : U) (s : ShimState S)
    (htl : s.tlDead = false) (hb : s.borrowed = false) :
    with_usecase uc R u s =
      (some (Guard.mk s.cell), { s with cell := some (uc.into u) }) ∧
    (∀ t : ShimState S, t.tlDead = false → t.borrowed = false →
      Guard.drop (Guard.mk s.cell) t = some { t with cell := s.cell }) := by
  constructor
  · simp [with_usecase, synchronized, htl, hb, Except.toOption]
  · intro t htl2 hb2
    simp [Guard.drop, htl2, hb2]

/-- Witness for C3: two nested acquisitions on a concrete state, the
theorem applied to the outer state and to the state the first acquisition
produced, showing the LIFO restore chain. -/
theorem C3_guard_restores_prior_w :
    with_usecase myUseCase (statsRecorder myUseCase) 1 s0 =
      (some (Guard.mk s0.cell), { s0 with cell := some (myUseCase.into 1) }) ∧
    with_usecase myUseCase (statsRecorder myUseCase) 2 { s0 with cell := some 1 } =
      (some (Guard.mk (some 1)),
        { { s0 with cell := some 1 } with cell := some (myUseCase.into 2) }) ∧
    Guard.drop (Guard.mk (some 1)) { s0 with cell := some 2 } =
      some { { s0 with cell := some 2 } with cell := some 1 } ∧
    Guard.drop (Guard.mk s0.cell) { s0 with cell := some 1 } =
      some { { s0 with cell := some 1 } with cell := s0.cell } :=
  ⟨(C3_guard_restores_prior myUseCase (statsRecorder myUseCase) 1 s0 rfl rfl).1,
   (C3_guard_restores_prior myUseCase (statsRecorder myUseCase) 2
      { s0 with cell := some 1 } rfl rfl).1,
   (C3_guard_restores_prior myUseCase (statsRecorder myUseCase) 2
      { s0 with cell := some 1 } rfl rfl).2 { s0 with cell := some 2 } rfl rfl,
   (C3_guard_restores_prior myUseCase (statsRecorder myUseCase) 1 s0 rfl rfl).2
      { s0 with cell := some 1 } rfl rfl⟩

/-- C4 counterexample: a dealloc performed while the context cell is
already borrowed (a reentrant free from inside a recorder callback) finds
pointer 5 tracked, yet on_dealloc is not invoked — the default recorder's
stats map stays empty while the ContentionRefCell counter rises — and the
entry even stays in the map; so on_dealloc is not invoked for every dealloc
of a mapped pointer. -/
theorem C4_borrowed_dealloc_skips_tracked :
    mapLookup 5 sBorrowed.tracked = some 0 ∧
    (dealloc myUseCase (statsRecorder myUseCase) 5 16 sBorrowed).tracked = [(5, 0)] ∧
    (dealloc myUseCase (statsRecorder myUseCase) 5 16 sBorrowed).recSt.results = none ∧
    (dealloc myUseCase (statsRecorder myUseCase) 5 16 sBorrowed).recSt.get_error
      Error.currentUsecaseContentionRefCell = 1 := by
  exact ⟨rfl, rfl, rfl, rfl⟩

/-- C4 (amended): for every dealloc that successfully enters the
synchronized section, on_dealloc is invoked exactly when the pointer has an
entry in the map; the tag passed is decoded from the raw bytes stored when
the pointer was allocated (default on decode failure), independent of the
thread's current use-case cell, and the entry is removed; an untracked
pointer leaves the whole state unchanged. -/
theorem C4_dealloc_attribution {U S : Type} (uc : UseCaseImpl U)
    (R : Recorder U S) (ptr size : Nat) (s : ShimState S)
    (htl : s.tlDead = false) (hb : s.borrowed = false) :
    dealloc uc R ptr size s =
      match mapLookup ptr s.tracked with
      | some bytes =>
        { s with
          tracked := mapErase ptr s.tracked
          recSt := R.on_dealloc s.recSt ((uc.tryFrom bytes).getD uc.default) size }
      | none => s := by
  cases h : mapLookup ptr s.tracked <;>
    simp [dealloc, handle_on_dealloc, synchronized, htl, hb, h]
  cases s
  simp_all

/-- Witness for C4's amended theorem: a concrete tracked free (the current
cell holds tag 2 but attribution uses the stored tag 0) and a concrete
untracked free. -/
theorem C4_dealloc_attribution_w :
    dealloc myUseCase (statsRecorder myUseCase) 5 16
        { s0 with cell := some 2, tracked := [(5, 0)] } =
      { { s0 with cell := some 2, tracked := [(5, 0)] } with
        tracked := mapErase 5 [(5, 0)]
        recSt := (statsRecorder myUseCase).on_dealloc s0.recSt
          ((myUseCase.tryFrom 0).getD myUseCase.default) 16 } ∧
    dealloc myUseCase (statsRecorder myUseCase) 7 16 s0 = s0 :=
  ⟨C4_dealloc_attribution myUseCase (statsRecorder myUseCase) 5 16
      { s0 with cell := some 2, tracked := [(5, 0)] } rfl rfl,
   C4_dealloc_attribution myUseCase (statsRecorder myUseCase) 7 16 s0 rfl rfl⟩

/-- C5: evaluation of the code at the failing input.  The thread's raw tag
is 99, which fails to decode; the alloc hook substitutes the default tag
(tag 0 receives the 16-byte allocation) and tracks the raw bytes 99 under
the pointer, and the later dealloc of those bytes again substitutes the
default — yet the BadBytes counter stays 0 throughout: no on_error call is
made on decode failure, contrary to the claim. -/
theorem C5_bad_decode_not_counted :
    (handle_on_alloc myUseCase (statsRecorder myUseCase) 7 16 sBadCell).tracked = [(7, 99)] ∧
    StatsRecorder.get myUseCase
      (handle_on_alloc myUseCase (statsRecorder myUseCase) 7 16 sBadCell).recSt 0 =
      { current := 16, peak := 16, total := 16 } ∧
    (handle_on_alloc myUseCase (statsRecorder myUseCase) 7 16 sBadCell).recSt.get_error
      Error.currentUsecaseBadBytes = 0 ∧
    StatsRecorder.get myUseCase
      (handle_on_dealloc myUseCase (statsRecorder myUseCase) 7 16
        (handle_on_alloc myUseCase (statsRecorder myUseCase) 7 16 sBadCell)).recSt 0 =
      { current := 0, peak := 16, total := 16 } ∧
    (handle_on_dealloc myUseCase (statsRecorder myUseCase) 7 16
        (handle_on_alloc myUseCase (statsRecorder myUseCase) 7 16 sBadCell)).recSt.get_error
      Error.currentUsecaseBadBytes = 0 := by
  exact ⟨rfl, rfl, rfl, rfl, rfl⟩

/-- Helper: `StatsRecorder::get` as one lookup over the lazily initialized
map (an uninitialized map behaves like the empty one). -/
theorem StatsRecorder.get_eq {U : Type} (uc : UseCaseImpl U) (r : StatsRecorder)
    (u : U) :
    StatsRecorder.get uc r u =
      (mapLookup (uc.into u) (r.results.getD [])).getD Stat.default := by
  cases h : r.results with
  | none => simp [StatsRecorder.get, h, mapLookup]
  | some m =>
    cases h2 : mapLookup (uc.into u) m <;> simp [StatsRecorder.get, h, h2]

/-- Helper: looking up the key just inserted returns the inserted value. -/
theorem mapLookup_mapInsert {V : Type} (k : Nat) (v : V) (m : List (Nat × V)) :
    mapLookup k (mapInsert k v m) = some v := by
  simp [mapInsert, mapLookup]

/-- C6: one StatsRecorder on_alloc(tag, size) call makes that tag's stats
evolve by current += size, peak = max(peak, current), total += size, and
returns true; one on_dealloc(tag, size) call makes them evolve by
current -= size, peak = max(peak, current) with total unchanged. -/
theorem C6_stats_recorder_updates {U : Type} (uc : UseCaseImpl U)
    (r : StatsRecorder) (u : U) (size : Nat) :
    (StatsRecorder.on_alloc uc r u size).1 = true ∧
    (StatsRecorder.get uc (StatsRecorder.on_alloc uc r u size).2 u).current =
      (StatsRecorder.get uc r u).current + size ∧
    (StatsRecorder.get uc (StatsRecorder.on_alloc uc r u size).2 u).peak =
      max (StatsRecorder.get uc r u).peak
        (StatsRecorder.get uc (StatsRecorder.on_alloc uc r u size).2 u).current ∧
    (StatsRecorder.get uc (StatsRecorder.on_alloc uc r u size).2 u).total =
      (StatsRecorder.get uc r u).total + size ∧
    (StatsRecorder.get uc (StatsRecorder.on_dealloc uc r u size) u).current =
      (StatsRecorder.get uc r u).current - size ∧
    (StatsRecorder.get uc (StatsRecorder.on_dealloc uc r u size) u).peak =
      max (StatsRecorder.get uc r u).peak
        (StatsRecorder.get uc (StatsRecorder.on_dealloc uc r u size) u).current ∧
    (StatsRecorder.get uc (StatsRecorder.on_dealloc uc r u size) u).total =
      (StatsRecorder.get uc r u).total := by
  have ha : StatsRecorder.get uc (StatsRecorder.on_alloc uc r u size).2 u =
      (StatsRecorder.get uc r u).record (Int.ofNat size) := by
    rw [StatsRecorder.get_eq, StatsRecorder.get_eq]
    simp [StatsRecorder.on_alloc, statUpdate, mapLookup_mapInsert]
  have hd : StatsRecorder.get uc (StatsRecorder.on_dealloc uc r u size) u =
      (StatsRecorder.get uc r u).record (-(Int.ofNat size)) := by
    rw [StatsRecorder.get_eq, StatsRecorder.get_eq]
    simp [StatsRecorder.on_dealloc, statUpdate, mapLookup_mapInsert]
  refine ⟨rfl, ?_, ?_, ?_, ?_, ?_, ?_⟩ <;>
    simp only [ha, hd, Stat.record, max_def, Int.ofNat_eq_coe] <;>
    repeat first | omega | split

/-- Helper: one `Stat::record` never lowers the peak. -/
theorem Stat.record_peak_mono (s : Stat) (z : Int) : s.peak ≤ (s.record z).peak := by
  simp only [Stat.record]
  split <;> omega

/-- Helper: one `Stat::record` never lowers the total. -/
theorem Stat.record_total_mono (s : Stat) (z : Int) : s.total ≤ (s.record z).total := by
  simp only [Stat.record]
  split <;> omega

/-- Helper: after any `Stat::record`, the peak dominates the current
value. -/
theorem Stat.record_peak_ge_current (s : Stat) (z : Int) :
    (s.record z).current ≤ (s.record z).peak := by
  simp only [Stat.record]
  split <;> omega

/-- Helper: `peak ≥ current` is preserved by any run of recorder events. -/
theorem runStats_peak_ge_current_aux (l : List StatEvent) (s : Stat)
    (h : s.current ≤ s.peak) :
    (l.foldl statStep s).current ≤ (l.foldl statStep s).peak := by
  induction l generalizing s with
  | nil => exact h
  | cons e rest ih =>
    refine ih (statStep s e) ?_
    cases e <;> exact Stat.record_peak_ge_current s _

/-- C7: starting from the zero stats, every sequence of StatsRecorder
alloc/dealloc updates keeps peak ≥ current after every step, and a further
step never decreases the peak and never decreases the total. -/
theorem C7_stat_invariants (l : List StatEvent) (e : StatEvent) :
    (runStats l).current ≤ (runStats l).peak ∧
    (runStats l).peak ≤ (statStep (runStats l) e).peak ∧
    (runStats l).total ≤ (statStep (runStats l) e).total := by
  refine ⟨runStats_peak_ge_current_aux l Stat.default (by simp [Stat.default]), ?_, ?_⟩ <;>
    cases e <;>
    first
      | exact Stat.record_peak_mono (runStats l) _
      | exact Stat.record_total_mono (runStats l) _

/-- C8: flush visits each entry of the stats map exactly once (decoding its
key), clears the map so that every subsequent get returns the zero stats
{current 0, peak 0, total 0}, and then visits each of the three error kinds
once with its current counter value. -/
theorem C8_flush_visits_and_clears {U : Type} (uc : UseCaseImpl U)
    (r : StatsRecorder) :
    (StatsRecorder.flush uc r).1 =
      (r.results.getD []).map (fun kv => ((uc.tryFrom kv.1).getD uc.default, kv.2)) ∧
    (∀ u : U, StatsRecorder.get uc (StatsRecorder.flush uc r).2.2 u =
      { current := 0, peak := 0, total := 0 }) ∧
    (StatsRecorder.flush uc r).2.1 =
      [(Error.currentUsecaseBadBytes, r.get_error Error.currentUsecaseBadBytes),
       (Error.currentUsecaseContentionRefCell,
        r.get_error Error.currentUsecaseContentionRefCell),
       (Error.currentUsecaseContentionThreadLocal,
        r.get_error Error.currentUsecaseContentionThreadLocal)] := by
  refine ⟨?_, ?_, rfl⟩
  · cases h : r.results <;> simp [StatsRecorder.flush, h]
  · intro u
    cases h : r.results <;>
      simp [StatsRecorder.flush, StatsRecorder.get, h, mapLookup, Stat.default]

/-- C9 counterexample: flushing a recorder whose BadBytes counter is 1 does
not bring get_error back to 0, contrary to the claim that the error
counters are reset on flush. -/
theorem C9_flush_keeps_error_counters :
    ¬ (StatsRecorder.flush myUseCase rErr).2.2.get_error
        Error.currentUsecaseBadBytes = 0 := by
  decide

/-- C9 (amended): the error counters only increment during operation —
on_error adds one to the matching counter and leaves the other kinds
unchanged — and flush reports but does not reset them: after flush,
get_error returns the same cumulative count as before. -/
theorem C9_error_counters_cumulative {U : Type} (uc : UseCaseImpl U)
    (r : StatsRecorder) (e : Error) (sz : Option Nat) :
    (StatsRecorder.on_error r e sz).get_error e = r.get_error e + 1 ∧
    (∀ e2 : Error, e2 ≠ e →
      (StatsRecorder.on_error r e sz).get_error e2 = r.get_error e2) ∧
    (StatsRecorder.flush uc r).2.2.get_error e = r.get_error e := by
  refine ⟨?_, ?_, ?_⟩
  · cases e <;> rfl
  · intro e2 h
    cases e <;> cases e2 <;> simp_all <;> rfl
  · cases e <;> rfl

/-- Witness for C9's amended theorem at the concrete recorder with one
BadBytes error on record. -/
theorem C9_error_counters_cumulative_w :
    (StatsRecorder.on_error rErr Error.currentUsecaseBadBytes none).get_error
      Error.currentUsecaseBadBytes = rErr.get_error Error.currentUsecaseBadBytes + 1 ∧
    (StatsRecorder.flush myUseCase rErr).2.2.get_error Error.currentUsecaseBadBytes =
      rErr.get_error Error.currentUsecaseBadBytes :=
  ⟨(C9_error_counters_cumulative myUseCase rErr Error.currentUsecaseBadBytes none).1,
   (C9_error_counters_cumulative myUseCase rErr Error.currentUsecaseBadBytes none).2.2⟩

/-- C10: when the closure given to with_recorder returns an error e (any
variant, BadBytes included), the shim applies the recorder's on_error to e
with size none and returns that same error; and for the default
StatsRecorder one such on_error application increments exactly e's
counter. -/
theorem C10_closure_errors_are_counted :
    (∀ (U S R2 : Type) (R : Recorder U S) (f : S → Except Error R2 × S)
        (s : ShimState S) (e : Error),
      s.tlDead = false → s.borrowed = false →
      (f s.recSt).1 = Except.error e →
      with_recorder R f s =
        (Except.error e, { s with recSt := R.on_error (f s.recSt).2 e none })) ∧
    (∀ (r : StatsRecorder) (e : Error),
      (StatsRecorder.on_error r e none).get_error e = r.get_error e + 1) := by
  constructor
  · intro U S R2 R f s e htl hb hf
    simp only [with_recorder, synchronized, htl, hb]
    simp only [Bool.false_eq_true, if_false]
    have : f s.recSt = (Except.error e, (f s.recSt).2) := by
      cases hfs : f s.recSt
      simp_all
    rw [this]
  · intro r e
    cases e <;> rfl

/-- Witness for C10 at a concrete closure that returns the BadBytes error
without touching the recorder. -/
theorem C10_closure_errors_are_counted_w :
    with_recorder (statsRecorder myUseCase)
        (fun r => ((Except.error Error.currentUsecaseBadBytes : Except Error Unit), r)) s0 =
      (Except.error Error.currentUsecaseBadBytes,
       { s0 with
         recSt := (statsRecorder myUseCase).on_error
           ((fun (r : StatsRecorder) =>
              ((Except.error Error.currentUsecaseBadBytes : Except Error Unit), r)) s0.recSt).2
           Error.currentUsecaseBadBytes none }) ∧
    (StatsRecorder.on_error StatsRecorder.new Error.currentUsecaseBadBytes none).get_error
      Error.currentUsecaseBadBytes =
      StatsRecorder.new.get_error Error.currentUsecaseBadBytes + 1 :=
  ⟨C10_closure_errors_are_counted.1 Nat StatsRecorder Unit (statsRecorder myUseCase)
      (fun r => ((Except.error Error.currentUsecaseBadBytes : Except Error Unit), r))
      s0 Error.currentUsecaseBadBytes rfl rfl rfl,
   C10_closure_errors_are_counted.2 StatsRecorder.new Error.currentUsecaseBadBytes⟩

end Memoria
